import Mathlib

/-!
# Verification of the type2kaitai generator

Shallow embedding of cmd/type2kaitai/main.go: a code generator that
translates Go type declarations into a Kaitai Struct (.ksy) schema.

The embedding mirrors the source:
* `BasicKind` models go/types.BasicKind (the predeclared basic kinds).
* `GoType` models the fragment of go/types.Type the generator consumes:
  Basic, Named (with its resolved underlying type), Struct (ordered field
  list), Array (with compile-time length), Slice, Pointer, Signature, and
  a catch-all for every other dynamic type (map, chan, interface, ...).
* `basicKindToKai` models basicKindToKai; its panic becomes an
  `Except.error (KaiError.unsupportedBasicKind _)`.
* `snakeCase` models snakeCase.  Go iterates over the runes of the string
  with unicode.IsUpper / unicode.ToLower; the embedding models those
  tables on the Basic Latin capitals A-Z (IsUpper true, ToLower adds 32)
  together with the category-Lu letterlike capitals without lowercase
  mappings ℂ (U+2102), ℕ (U+2115), ℝ (U+211D) and ℤ (U+2124), on which Go
  has IsUpper true and ToLower the identity; the remaining runes — in
  particular every other ASCII rune — are caseless in both Go and the
  model.
* `kaiType` models Generator.kaiType; the namedTypeDeps side effect is
  returned as the second component; panics become errors.
* `generateType` / `generateFields` model Generator.generateType; the
  buffered Printf output is modelled as the list of emitted lines
  (each Go Printf call ends in a newline and contributes one line).
* `generate`, `generateAll`, `run`, `writtenFile` model Generator.generate
  and main: the output file is written once, at the end, only if every
  requested type was generated; log.Fatalf / panic become errors that
  abort the whole run, so on error no file content exists.
-/

deriving instance DecidableEq for Except

namespace Type2Kaitai

/-- go/types.BasicKind.  `rawPtr` stands for types.UnsafePointer. -/
inductive BasicKind where
  | invalid
  | bool
  | int
  | int8
  | int16
  | int32
  | int64
  | uint
  | uint8
  | uint16
  | uint32
  | uint64
  | uintptr
  | float32
  | float64
  | complex64
  | complex128
  | string
  | rawPtr
  | untypedBool
  | untypedInt
  | untypedRune
  | untypedFloat
  | untypedComplex
  | untypedString
  | untypedNil
  deriving DecidableEq, Fintype

/-- The three fatal failure modes of the generator: log.Fatalf in
Generator.generate (unresolved type name), the panic in the default arm of
Generator.generateType / Generator.kaiType (unsupported type kind, carrying
the Go %T rendering of the dynamic type), and the panic in the default arm
of basicKindToKai (unsupported basic kind). -/
inductive KaiError where
  | unresolvedTypeName (name : String)
  | unsupportedTypeKind (goDynamicType : String)
  | unsupportedBasicKind (kind : BasicKind)
  deriving DecidableEq

/-- basicKindToKai from main.go: the mapping from a Go basic kind to a
Kaitai primitive type code.  The kinds with no case arm in the source (the
untyped-constant kinds and the invalid kind) hit the default arm, which
panics; the panic is modelled as an error. -/
def basicKindToKai : BasicKind → Except KaiError String
  | .bool => .ok "b8"
  | .int => .ok "s8"
  | .int8 => .ok "s1"
  | .int16 => .ok "s2"
  | .int32 => .ok "s4"
  | .int64 => .ok "s8"
  | .uint => .ok "u8"
  | .uint8 => .ok "u1"
  | .uint16 => .ok "u2"
  | .uint32 => .ok "u4"
  | .uint64 => .ok "u8"
  | .uintptr => .ok "u8"
  | .float32 => .ok "f2"
  | .float64 => .ok "f4"
  | .complex64 => .ok "go_complex64"
  | .complex128 => .ok "go_complex128"
  | .string => .ok "go_string"
  | .rawPtr => .ok "go_unsafe_ptr"
  | k => .error (.unsupportedBasicKind k)

/-- go/types.Basic.Name() for each basic kind (used in trailing comments). -/
def basicName : BasicKind → String
  | .invalid => "invalid type"
  | .bool => "bool"
  | .int => "int"
  | .int8 => "int8"
  | .int16 => "int16"
  | .int32 => "int32"
  | .int64 => "int64"
  | .uint => "uint"
  | .uint8 => "uint8"
  | .uint16 => "uint16"
  | .uint32 => "uint32"
  | .uint64 => "uint64"
  | .uintptr => "uintptr"
  | .float32 => "float32"
  | .float64 => "float64"
  | .complex64 => "complex64"
  | .complex128 => "complex128"
  | .string => "string"
  | .rawPtr => "Pointer"
  | .untypedBool => "untyped bool"
  | .untypedInt => "untyped int"
  | .untypedRune => "untyped rune"
  | .untypedFloat => "untyped float"
  | .untypedComplex => "untyped complex"
  | .untypedString => "untyped string"
  | .untypedNil => "untyped nil"

/-- The fragment of go/types.Type consumed by the generator.  `named`
carries the type name together with its resolved underlying type (what
go/types.Named.Underlying() returns; in Go that underlying type is itself
never a Named type).  `struct` carries the ordered field list (name and
type; only Field(i).Name() and Field(i).Type() are consumed).  `array`
carries the compile-time length Len() (an int64 that Go guarantees to be
non-negative) and the element type.  `signature` carries only its
types.TypeString display form (no structural information of a signature is
consumed by the generator).  `other` stands for every other dynamic type
(map, chan, interface, type parameter, ...) and carries its Go %T
rendering. -/
inductive GoType where
  | basic (kind : BasicKind)
  | named (name : String) (underlying : GoType)
  | struct (fields : List (String × GoType))
  | array (len : Nat) (elem : GoType)
  | slice (elem : GoType)
  | pointer (elem : GoType)
  | signature (display : String)
  | other (goDynamicType : String)

/-- The Go %T rendering of the dynamic go/types.Type, as printed by the
panic messages in the default arms of the type switches. -/
def goTypeName : GoType → String
  | .basic _ => "*types.Basic"
  | .named _ _ => "*types.Named"
  | .struct _ => "*types.Struct"
  | .array _ _ => "*types.Array"
  | .slice _ => "*types.Slice"
  | .pointer _ => "*types.Pointer"
  | .signature _ => "*types.Signature"
  | .other d => d

mutual

/-- types.TypeString(t, skipQualifier): the display form of a type with
package qualifiers dropped. -/
def typeString : GoType → String
  | .basic k => (if k = BasicKind.rawPtr then "unsafe." else "") ++ basicName k
  | .named n _ => n
  | .struct fields => "struct\x7b" ++ fieldListString fields ++ "\x7d"
  | .array n e => "[" ++ toString n ++ "]" ++ typeString e
  | .slice e => "[]" ++ typeString e
  | .pointer e => "*" ++ typeString e
  | .signature d => d
  | .other d => d

/-- Helper of `typeString`: the field list of a struct display form,
separated by "; " as types.TypeString renders it. -/
def fieldListString : List (String × GoType) → String
  | [] => ""
  | [(n, t)] => n ++ " " ++ typeString t
  | (n, t) :: f :: rest => n ++ " " ++ typeString t ++ "; " ++ fieldListString (f :: rest)

end

/-- unicode.IsUpper on the modelled fragment of the Unicode tables: true
on the Basic Latin capitals A-Z and on the category-Lu letterlike
capitals ℂ (U+2102), ℕ (U+2115), ℝ (U+211D) and ℤ (U+2124), which have no
lowercase mapping; every other modelled rune — in particular every other
ASCII rune — is caseless, as in Go. -/
def isUpperRune (c : Char) : Bool :=
  decide ((65 ≤ c.toNat ∧ c.toNat ≤ 90)
    ∨ c.toNat = 0x2102 ∨ c.toNat = 0x2115 ∨ c.toNat = 0x211D ∨ c.toNat = 0x2124)

/-- unicode.ToLower on the modelled fragment of the Unicode tables: the
Basic Latin capitals A-Z are lowered by 32; every other rune is left
unchanged — in particular the letterlike capitals ℂ, ℕ, ℝ and ℤ, which
are uppercase but have no lowercase mapping, so Go's ToLower is the
identity on them. -/
def toLowerRune (c : Char) : Char :=
  if 65 ≤ c.toNat ∧ c.toNat ≤ 90 then Char.ofNat (c.toNat + 32) else c

/-- The rune loop of snakeCase: `prevUpper` starts true; an uppercase rune
is lower-cased and, when the previous rune was not uppercase, preceded by
an underscore; every other rune is copied unchanged. -/
def snakeCaseAux : Bool → List Char → List Char
  | _, [] => []
  | prevUpper, r :: rs =>
    if isUpperRune r then
      if prevUpper then
        toLowerRune r :: snakeCaseAux true rs
      else
        '_' :: toLowerRune r :: snakeCaseAux true rs
    else
      r :: snakeCaseAux false rs

/-- snakeCase from main.go: the snake_case version of the given string. -/
def snakeCase (s : String) : String := ⟨snakeCaseAux true s.data⟩

/-- Generator.kaiType: the (possibly multi-line) Kaitai directive string
for a field type, paired with the list of named Go type dependencies
recorded in g.namedTypeDeps while translating it.  Panics (the default arm
and the panic inside basicKindToKai) are modelled as errors. -/
def kaiType : GoType → Except KaiError (String × List String)
  | .basic k =>
    match basicKindToKai k with
    | .error e => .error e
    | .ok code => .ok ("type: " ++ code ++ " # " ++ basicName k, [])
  | .named name u =>
    match u with
    | .basic bk =>
      match basicKindToKai bk with
      | .error e => .error e
      | .ok code => .ok ("type: " ++ code ++ "\n" ++ "enum: " ++ snakeCase name, [name])
    | _ => .ok ("type: " ++ snakeCase name ++ " # " ++ name, [name])
  | .array len elem =>
    match kaiType elem with
    | .error e => .error e
    | .ok (s, deps) =>
      .ok (s ++ "\n" ++ "repeat: expr\n" ++ "repeat-expr: " ++ toString len ++ " # "
            ++ typeString (.array len elem), deps)
  | .slice elem =>
    match kaiType elem with
    | .error e => .error e
    | .ok (s, deps) =>
      .ok (s ++ "\n" ++ "repeat: expr\n" ++ "repeat-expr: todo_add_slice_len # "
            ++ typeString (.slice elem), deps)
  | .pointer elem => .ok ("type: pointer # " ++ typeString (.pointer elem), [])
  | .signature d => .ok ("type: func_signature # " ++ typeString (.signature d), [])
  | .struct _ => .error (.unsupportedTypeKind "*types.Struct")
  | .other d => .error (.unsupportedTypeKind d)

/-- The nesting depth of array/slice wrappers: the exact recursion depth
of `kaiType`, which recurses only into the element type of arrays and
slices. -/
def tySize : GoType → Nat
  | .array _ elem => tySize elem + 1
  | .slice elem => tySize elem + 1
  | _ => 1

/-- Fuel-indexed version of `kaiType`, case for case the same function,
with the two recursive calls (the element type of an array and of a slice)
charged one unit of fuel.  `none` means the fuel ran out. -/
def kaiTypeF : Nat → GoType → Option (Except KaiError (String × List String))
  | 0, _ => none
  | fuel + 1, t =>
    match t with
    | .basic k =>
      match basicKindToKai k with
      | .error e => some (.error e)
      | .ok code => some (.ok ("type: " ++ code ++ " # " ++ basicName k, []))
    | .named name u =>
      match u with
      | .basic bk =>
        match basicKindToKai bk with
        | .error e => some (.error e)
        | .ok code => some (.ok ("type: " ++ code ++ "\n" ++ "enum: " ++ snakeCase name, [name]))
      | _ => some (.ok ("type: " ++ snakeCase name ++ " # " ++ name, [name]))
    | .array len elem =>
      match kaiTypeF fuel elem with
      | none => none
      | some (.error e) => some (.error e)
      | some (.ok (s, deps)) =>
        some (.ok (s ++ "\n" ++ "repeat: expr\n" ++ "repeat-expr: " ++ toString len ++ " # "
              ++ typeString (.array len elem), deps))
    | .slice elem =>
      match kaiTypeF fuel elem with
      | none => none
      | some (.error e) => some (.error e)
      | some (.ok (s, deps)) =>
        some (.ok (s ++ "\n" ++ "repeat: expr\n" ++ "repeat-expr: todo_add_slice_len # "
              ++ typeString (.slice elem), deps))
    | .pointer elem => some (.ok ("type: pointer # " ++ typeString (.pointer elem), []))
    | .signature d => some (.ok ("type: func_signature # " ++ typeString (.signature d), []))
    | .struct _ => some (.error (.unsupportedTypeKind "*types.Struct"))
    | .other d => some (.error (.unsupportedTypeKind d))

/-- strings.Split(s, "\n") on the underlying rune list: the (always
non-empty) list of newline-separated pieces.  The empty-list arm of the
inner match is unreachable (the function always returns at least one
piece), mirroring that Go's strings.Split never returns an empty slice
for a non-empty separator. -/
def splitNlChars : List Char → List (List Char)
  | [] => [[]]
  | c :: cs =>
    if c = '\n' then [] :: splitNlChars cs
    else
      match splitNlChars cs with
      | [] => [[c]]
      | line :: rest => (c :: line) :: rest

/-- The per-field indentation of Generator.generateType: the kaiType
string is split on newlines and every line printed with eight leading
spaces. -/
def indentLines (s : String) : List String :=
  (splitNlChars s.data).map (fun line => "        " ++ String.mk line)

/-- The field loop of Generator.generateType over a struct's fields, in
declaration order: for each field one "      - id: <snake_case name>" line
followed by the indented kaiType lines of the field's type. -/
def generateFields : List (String × GoType) → Except KaiError (List String × List String)
  | [] => .ok ([], [])
  | (fieldName, fieldType) :: rest =>
    match kaiType fieldType with
    | .error e => .error e
    | .ok (s, deps) =>
      match generateFields rest with
      | .error e => .error e
      | .ok (restLines, restDeps) =>
        .ok ((("      - id: " ++ snakeCase fieldName) :: indentLines s) ++ restLines,
              deps ++ restDeps)

/-- Generator.generateType: only *types.Struct is handled; every other
dynamic type hits the default arm and panics (modelled as an error). -/
def generateType : GoType → Except KaiError (List String × List String)
  | .struct fields => generateFields fields
  | t => .error (.unsupportedTypeKind (goTypeName t))

/-- go/types.Type.Underlying() on the fragment modelled here: a Named type
yields its stored underlying type, every other type yields itself. -/
def underlyingOf : GoType → GoType
  | .named _ u => u
  | t => t

/-- The lookup loop of Generator.generate over g.pkg.defs: the first
definition whose identifier equals the requested type name (top-level type
names are unique within a package). -/
def lookupDef : List (String × GoType) → String → Option GoType
  | [], _ => none
  | (n, t) :: rest, typeName => if n = typeName then some t else lookupDef rest typeName

/-- Generator.generate: resolve the requested type name from the package
definitions (log.Fatalf, modelled as an error, if absent), print the entry
header ("  <snake_case name>:" and "    seq:") and generate the entry body
from the underlying type. -/
def generate (defs : List (String × GoType)) (typeName : String) :
    Except KaiError (List String × List String) :=
  match lookupDef defs typeName with
  | none => .error (.unresolvedTypeName typeName)
  | some defType =>
    match generateType (underlyingOf defType) with
    | .error e => .error e
    | .ok (lines, deps) =>
      .ok (("  " ++ snakeCase typeName ++ ":") :: "    seq:" :: lines, deps)

/-- The loop of main over the requested type names, in requested order;
the first failure aborts the whole run. -/
def generateAll (defs : List (String × GoType)) :
    List String → Except KaiError (List String × List String)
  | [] => .ok ([], [])
  | typeName :: rest =>
    match generate defs typeName with
    | .error e => .error e
    | .ok (lines, deps) =>
      match generateAll defs rest with
      | .error e => .error e
      | .ok (restLines, restDeps) => .ok (lines ++ restLines, deps ++ restDeps)

/-- The header lines main prints before generating any type: the
provenance comment (with the command-line arguments), a blank line, and
"types:". -/
def headerLines (argsLine : String) : List String :=
  ("# Code generated by " ++ "\"enum2kaitai " ++ argsLine ++ "\"; DO NOT EDIT.")
    :: "" :: ["types:"]

/-- main's document assembly: header lines followed by every generated
entry, or the first error. -/
def run (argsLine : String) (defs : List (String × GoType)) (typeNames : List String) :
    Except KaiError (List String) :=
  match generateAll defs typeNames with
  | .error e => .error e
  | .ok (lines, _) => .ok (headerLines argsLine ++ lines)

/-- The buffered document as the single string main hands to
ioutil.WriteFile: every line followed by a newline. -/
def render (lines : List String) : String :=
  String.join (lines.map (fun line => line ++ "\n"))

/-- The content of the output file, if one is produced: main writes the
buffer to the output file only as its final step, after every requested
type was generated; log.Fatalf and panic terminate the process before that
write, so on any error no file is produced. -/
def writtenFile (argsLine : String) (defs : List (String × GoType))
    (typeNames : List String) : Option String :=
  match run argsLine defs typeNames with
  | .error _ => none
  | .ok lines => some (render lines)

/-- The marker of a field-entry line in the generated document. -/
def idMarkerChars : List Char := "      - id: ".data

/-- Does the marker (first argument) occur at the start of the line
(second argument)? -/
def startsWithChars : List Char → List Char → Bool
  | [], _ => true
  | _ :: _, [] => false
  | m :: ms, c :: cs => c == m && startsWithChars ms cs

/-- Recognizes the "      - id: " field-entry lines of the generated
document. -/
def isIdLine (line : String) : Bool := startsWithChars idMarkerChars line.data

end Type2Kaitai

namespace Type2Kaitai

/-- Characters packed from a small code point unpack to the same code
point. -/
theorem toNat_charOfNat_of_small (m : Nat) (h : m < 55296) : (Char.ofNat m).toNat = m := by
  rw [Char.ofNat, dif_pos (Or.inl h)]
  rfl

/-- Lower-casing an ASCII rune never yields an uppercase rune.  This is
false without the ASCII bound: the letterlike capitals (e.g. ℂ) are
uppercase and lower-casing leaves them unchanged. -/
theorem isUpperRune_toLowerRune_ascii (c : Char) (hc : c.toNat < 128) :
    isUpperRune (toLowerRune c) = false := by
  by_cases h : 65 ≤ c.toNat ∧ c.toNat ≤ 90
  · have he : toLowerRune c = Char.ofNat (c.toNat + 32) := by
      unfold toLowerRune
      rw [if_pos h]
    have ht : (Char.ofNat (c.toNat + 32)).toNat = c.toNat + 32 :=
      toNat_charOfNat_of_small _ (by omega)
    unfold isUpperRune
    rw [he, ht]
    simp only [decide_eq_false_iff_not]
    omega
  · unfold toLowerRune isUpperRune
    rw [if_neg h]
    simp only [decide_eq_false_iff_not]
    omega

/-- The inserted separator is not uppercase. -/
theorem isUpperRune_underscore : isUpperRune '_' = false := by decide

/-- On an ASCII rune list, every rune emitted by the snakeCase loop is
non-uppercase: it is either an underscore, a lower-cased ASCII capital,
or a rune that was already non-uppercase. -/
theorem mem_snakeCaseAux_not_upper : ∀ {l : List Char} {b : Bool} {c : Char},
    (∀ a ∈ l, a.toNat < 128) → c ∈ snakeCaseAux b l → isUpperRune c = false := by
  intro l
  induction l with
  | nil =>
    intro b c _ h
    simp [snakeCaseAux] at h
  | cons r rs ih =>
    intro b c hascii h
    have hr128 : r.toNat < 128 := hascii r (List.mem_cons_self r rs)
    have hrs : ∀ a ∈ rs, a.toNat < 128 := fun a ha => hascii a (List.mem_cons_of_mem r ha)
    by_cases hr : isUpperRune r = true
    · cases b with
      | true =>
        simp [snakeCaseAux, hr] at h
        rcases h with h1 | h2
        · rw [h1]; exact isUpperRune_toLowerRune_ascii r hr128
        · exact ih hrs h2
      | false =>
        simp [snakeCaseAux, hr] at h
        rcases h with h1 | h2 | h3
        · rw [h1]; exact isUpperRune_underscore
        · rw [h2]; exact isUpperRune_toLowerRune_ascii r hr128
        · exact ih hrs h3
    · have hrf : isUpperRune r = false := eq_false_of_ne_true hr
      simp [snakeCaseAux, hrf] at h
      rcases h with h1 | h2
      · rw [h1]; exact hrf
      · exact ih hrs h2

/-- The snakeCase loop leaves a rune list without uppercase runes
unchanged, whatever the initial prevUpper flag. -/
theorem snakeCaseAux_of_no_upper {l : List Char} (h : ∀ c ∈ l, isUpperRune c = false)
    (b : Bool) : snakeCaseAux b l = l := by
  induction l generalizing b with
  | nil => rfl
  | cons r rs ih =>
    unfold snakeCaseAux
    rw [if_neg]
    · rw [ih (fun c hc => h c (List.mem_cons_of_mem r hc)) false]
    · rw [h r (List.mem_cons_self r rs)]
      exact Bool.false_ne_true

/-- Claim C7, counterexample: the identifier normalizer is not idempotent
for every input string.  The rune ℂ (U+2102) is uppercase but has no
lowercase mapping, so normalization leaves it uppercase after the
inserted separator, and the second pass inserts a fresh separator:
"aℂ" normalizes to "a_ℂ" and re-normalizes to "a__ℂ". -/
theorem claim_C7_counterexample :
    snakeCase "aℂ" = "a_ℂ" ∧ snakeCase (snakeCase "aℂ") = "a__ℂ"
    ∧ snakeCase (snakeCase "aℂ") ≠ snakeCase "aℂ" := by decide

/-- Claim C7, amended: the identifier normalizer is idempotent on every
string of ASCII runes — there a normalized string contains no uppercase
rune that could trigger separator insertion. -/
theorem claim_C7_amended (s : String) (h : ∀ c ∈ s.data, c.toNat < 128) :
    snakeCase (snakeCase s) = snakeCase s := by
  unfold snakeCase
  exact congrArg String.mk
    (snakeCaseAux_of_no_upper (fun c hc => mem_snakeCaseAux_not_upper h hc) true)

/-- Claim C7, witness: the ASCII identifier OrderStatus. -/
theorem claim_C7_amended_witness :
    (∀ c ∈ ("OrderStatus" : String).data, c.toNat < 128)
    ∧ snakeCase (snakeCase "OrderStatus") = snakeCase "OrderStatus" :=
  ⟨by decide, claim_C7_amended "OrderStatus" (by decide)⟩

/-- A marker is a start of any of its own extensions. -/
theorem startsWithChars_append (marker rest : List Char) :
    startsWithChars marker (marker ++ rest) = true := by
  induction marker with
  | nil => rfl
  | cons m ms ih => simp [startsWithChars, ih]

/-- Field-entry lines are recognized by `isIdLine`. -/
theorem isIdLine_of_id (x : String) : isIdLine ("      - id: " ++ x) = true := by
  unfold isIdLine
  rw [String.data_append]
  exact startsWithChars_append idMarkerChars x.data

/-- Indented directive lines (eight leading spaces) are never mistaken
for field-entry lines (six spaces followed by a dash). -/
theorem isIdLine_of_indent (x : String) : isIdLine ("        " ++ x) = false := by
  unfold isIdLine
  rw [String.data_append]
  rfl

/-- The field-entry lines emitted by the field loop are exactly one line
"      - id: <snake_case name>" per field, in declaration order. -/
theorem generateFields_filter_id (fields : List (String × GoType)) (lines deps : List String)
    (h : generateFields fields = .ok (lines, deps)) :
    lines.filter isIdLine = fields.map (fun f => "      - id: " ++ snakeCase f.1) := by
  induction fields generalizing lines deps with
  | nil =>
    unfold generateFields at h
    simp at h
    rw [h.1]
    rfl
  | cons f rest ih =>
    obtain ⟨fn, ft⟩ := f
    unfold generateFields at h
    cases hkt : kaiType ft with
    | error e => rw [hkt] at h; exact absurd h (by simp)
    | ok v =>
      obtain ⟨s, d⟩ := v
      rw [hkt] at h
      cases hgf : generateFields rest with
      | error e => rw [hgf] at h; exact absurd h (by simp)
      | ok w =>
        obtain ⟨restLines, restDeps⟩ := w
        rw [hgf] at h
        simp at h
        obtain ⟨hl, hd⟩ := h
        rw [← hl]
        simp only [List.cons_append, List.filter_cons, isIdLine_of_id, if_pos,
          List.filter_append, List.map_cons]
        have hnil : List.filter isIdLine (indentLines s) = [] := by
          rw [List.filter_eq_nil_iff]
          intro a ha
          unfold indentLines at ha
          obtain ⟨line, _, hline⟩ := List.mem_map.mp ha
          rw [← hline, isIdLine_of_indent]
          simp
        rw [hnil]
        simp [ih restLines restDeps hgf]

/-- Claim C5: for every struct whose translation succeeds, the emitted
lines contain exactly one field-entry line per declared field, and the
order of those lines equals the declaration order of the fields (the
filtered field-entry lines are the field list itself, mapped through the
identifier normalizer). -/
theorem claim_C5 (fields : List (String × GoType)) (lines deps : List String)
    (h : generateType (.struct fields) = .ok (lines, deps)) :
    lines.filter isIdLine = fields.map (fun f => "      - id: " ++ snakeCase f.1) :=
  generateFields_filter_id fields lines deps h

/-- Claim C5, witness: the two-field struct Point{X int32; Y int32}. -/
theorem claim_C5_witness :
    generateType (GoType.struct [("X", GoType.basic BasicKind.int32),
        ("Y", GoType.basic BasicKind.int32)])
      = Except.ok (["      - id: x", "        type: s4 # int32",
          "      - id: y", "        type: s4 # int32"], [])
    ∧ List.filter isIdLine ["      - id: x", "        type: s4 # int32",
          "      - id: y", "        type: s4 # int32"]
      = List.map (fun f => "      - id: " ++ snakeCase f.1)
          [("X", GoType.basic BasicKind.int32), ("Y", GoType.basic BasicKind.int32)] :=
  ⟨rfl, claim_C5 _ _ _ rfl⟩

end Type2Kaitai

namespace Type2Kaitai

/-- Claim C1, counterexample: at exactly the spec's end-to-end example — a
requested top-level type OrderStatus defined as a named type over the
8-bit unsigned kind — the run does not succeed and no document entry is
emitted: generateType handles only struct underlying types, so the run
aborts with an unsupported-type-kind error. -/
theorem claim_C1_counterexample :
    run "-type OrderStatus ."
      [("OrderStatus", GoType.named "OrderStatus" (GoType.basic BasicKind.uint8))]
      ["OrderStatus"] = .error (.unsupportedTypeKind "*types.Basic") := rfl

/-- Claim C1, amended: for every requested top-level type defined as a
named primitive-backed type over the 8-bit unsigned kind, the run aborts
with an UnsupportedTypeKind error for the basic underlying type; the
"type: u1" plus "enum: <normalized name>" directive pair is produced only
where such a named type occurs as a struct field's type. -/
theorem claim_C1_amended (tn : String) :
    generate [(tn, GoType.named tn (GoType.basic BasicKind.uint8))] tn
      = .error (.unsupportedTypeKind "*types.Basic")
    ∧ kaiType (GoType.named tn (GoType.basic BasicKind.uint8))
      = .ok ("type: " ++ "u1" ++ "\n" ++ "enum: " ++ snakeCase tn, [tn]) := by
  constructor
  · have hl : lookupDef [(tn, GoType.named tn (GoType.basic BasicKind.uint8))] tn
        = some (GoType.named tn (GoType.basic BasicKind.uint8)) := by
      unfold lookupDef
      rw [if_pos rfl]
    unfold generate
    rw [hl]
    rfl
  · rfl

/-- Claim C2, counterexample: the primitive-kind mapping is not injective
over the supported subset — the distinct supported kinds Int and Int64
both map to the code "s8". -/
theorem claim_C2_counterexample :
    basicKindToKai .int = .ok "s8" ∧ basicKindToKai .int64 = .ok "s8"
      ∧ BasicKind.int ≠ BasicKind.int64 := by decide

/-- Two supported kinds receive the same code exactly when they are equal
or lie in one of the two code-sharing groups of basicKindToKai. -/
theorem basicKindToKai_eq_cases : ∀ k1 k2 : BasicKind,
    basicKindToKai k1 = basicKindToKai k2 →
    k1 = k2 ∨ (k1 ∈ [BasicKind.int, BasicKind.int64] ∧ k2 ∈ [BasicKind.int, BasicKind.int64])
      ∨ (k1 ∈ [BasicKind.uint, BasicKind.uint64, BasicKind.uintptr]
          ∧ k2 ∈ [BasicKind.uint, BasicKind.uint64, BasicKind.uintptr]) := by
  decide

/-- Claim C2, amended: the primitive-kind mapping returns the same code on
every call (it is a pure function of the kind, so determinism is
definitional), but it is injective only up to two code-sharing groups:
Int and Int64 share "s8", and Uint, Uint64 and Uintptr share "u8"; any two
supported kinds that receive the same code are equal or lie together in
one of those groups. -/
theorem claim_C2_amended (k1 k2 : BasicKind) (c1 c2 : String)
    (h1 : basicKindToKai k1 = .ok c1) (h2 : basicKindToKai k2 = .ok c2) (hc : c1 = c2) :
    k1 = k2 ∨ (k1 ∈ [BasicKind.int, BasicKind.int64] ∧ k2 ∈ [BasicKind.int, BasicKind.int64])
      ∨ (k1 ∈ [BasicKind.uint, BasicKind.uint64, BasicKind.uintptr]
          ∧ k2 ∈ [BasicKind.uint, BasicKind.uint64, BasicKind.uintptr]) := by
  apply basicKindToKai_eq_cases
  rw [h1, h2, hc]

/-- Claim C2, witness: Int and Int64 both receive "s8" and indeed lie in
the first code-sharing group. -/
theorem claim_C2_amended_witness :
    basicKindToKai .int = .ok "s8" ∧ basicKindToKai .int64 = .ok "s8"
    ∧ (BasicKind.int = BasicKind.int64
      ∨ (BasicKind.int ∈ [BasicKind.int, BasicKind.int64]
          ∧ BasicKind.int64 ∈ [BasicKind.int, BasicKind.int64])
      ∨ (BasicKind.int ∈ [BasicKind.uint, BasicKind.uint64, BasicKind.uintptr]
          ∧ BasicKind.int64 ∈ [BasicKind.uint, BasicKind.uint64, BasicKind.uintptr])) :=
  ⟨rfl, rfl, claim_C2_amended BasicKind.int BasicKind.int64 "s8" "s8" rfl rfl rfl⟩

/-- Claim C3, counterexample: the textual, complex and unsafe-pointer
kinds do not fail — basicKindToKai returns placeholder codes for them. -/
theorem claim_C3_counterexample :
    basicKindToKai .string = .ok "go_string"
    ∧ basicKindToKai .complex64 = .ok "go_complex64"
    ∧ basicKindToKai .complex128 = .ok "go_complex128"
    ∧ basicKindToKai .rawPtr = .ok "go_unsafe_ptr" := by decide

/-- Claim C3, amended: the primitive-kind mapping fails with an
unsupported-primitive-kind error exactly for the compiler-internal
untyped-constant kinds and the invalid kind; the textual, complex and
unsafe-pointer kinds instead return the placeholder codes go_string,
go_complex64, go_complex128 and go_unsafe_ptr. -/
theorem claim_C3_amended : ∀ k : BasicKind,
    basicKindToKai k = .error (.unsupportedBasicKind k) ↔
    (k = .invalid ∨ k = .untypedBool ∨ k = .untypedInt ∨ k = .untypedRune ∨
     k = .untypedFloat ∨ k = .untypedComplex ∨ k = .untypedString ∨ k = .untypedNil) := by
  decide

/-- Claim C4: for every struct field whose type is a Named type with a
basic (primitive) underlying type whose kind is supported, the field
translator emits both the primitive "type:" line for the underlying kind
and an "enum:" line carrying the normalized type name (and records the
name as a dependency). -/
theorem claim_C4 (name : String) (k : BasicKind) (code : String)
    (h : basicKindToKai k = .ok code) :
    kaiType (GoType.named name (GoType.basic k))
      = .ok ("type: " ++ code ++ "\n" ++ "enum: " ++ snakeCase name, [name]) := by
  have he : kaiType (GoType.named name (GoType.basic k))
      = match basicKindToKai k with
        | .error e => .error e
        | .ok code => .ok ("type: " ++ code ++ "\n" ++ "enum: " ++ snakeCase name, [name]) := rfl
  rw [he, h]

/-- Claim C4, witness: the named type OrderStatus over uint8. -/
theorem claim_C4_witness :
    basicKindToKai BasicKind.uint8 = .ok "u1"
    ∧ kaiType (GoType.named "OrderStatus" (GoType.basic BasicKind.uint8))
      = .ok ("type: " ++ "u1" ++ "\n" ++ "enum: " ++ snakeCase "OrderStatus", ["OrderStatus"]) :=
  ⟨rfl, claim_C4 "OrderStatus" BasicKind.uint8 "u1" rfl⟩

/-- Claim C6: for every fixed-size array type whose element translates
successfully, the translator emits the element's translation first, then a
"repeat: expr" line, then a "repeat-expr:" directive whose literal count
is exactly the array length. -/
theorem claim_C6 (len : Nat) (elem : GoType) (s : String) (deps : List String)
    (h : kaiType elem = .ok (s, deps)) :
    kaiType (GoType.array len elem)
      = .ok (s ++ "\n" ++ "repeat: expr\n" ++ "repeat-expr: " ++ toString len ++ " # "
            ++ typeString (GoType.array len elem), deps) := by
  have he : kaiType (GoType.array len elem)
      = match kaiType elem with
        | .error e => .error e
        | .ok (s, deps) =>
          .ok (s ++ "\n" ++ "repeat: expr\n" ++ "repeat-expr: " ++ toString len ++ " # "
                ++ typeString (GoType.array len elem), deps) := rfl
  rw [he, h]

/-- Claim C6, witness: a length-4 array of uint8. -/
theorem claim_C6_witness :
    kaiType (GoType.basic BasicKind.uint8) = .ok ("type: u1 # uint8", [])
    ∧ kaiType (GoType.array 4 (GoType.basic BasicKind.uint8))
      = .ok ("type: u1 # uint8" ++ "\n" ++ "repeat: expr\n" ++ "repeat-expr: " ++ toString 4
            ++ " # " ++ typeString (GoType.array 4 (GoType.basic BasicKind.uint8)), []) :=
  ⟨rfl, claim_C6 4 (GoType.basic BasicKind.uint8) "type: u1 # uint8" [] rfl⟩

/-- If some requested name fails to generate, the whole batch fails. -/
theorem generateAll_error_of_mem (defs : List (String × GoType)) (names : List String)
    (name : String) (e : KaiError) (hmem : name ∈ names)
    (herr : generate defs name = .error e) :
    ∃ e2, generateAll defs names = .error e2 := by
  induction names with
  | nil => cases hmem
  | cons n rest ih =>
    unfold generateAll
    cases hg : generate defs n with
    | error e1 => exact ⟨e1, rfl⟩
    | ok v =>
      obtain ⟨ls, ds⟩ := v
      rcases List.mem_cons.mp hmem with hn | hmem2
      · rw [hn] at herr
        rw [herr] at hg
        exact absurd hg (by simp)
      · obtain ⟨e2, h2⟩ := ih hmem2
        rw [h2]
        exact ⟨e2, rfl⟩

/-- Claim C8: for every run in which the generation of any requested type
fails (with any of the three errors), the run aborts before the output
file is written — no output file is produced at all. -/
theorem claim_C8 (args : String) (defs : List (String × GoType)) (names : List String)
    (name : String) (e : KaiError) (hmem : name ∈ names)
    (herr : generate defs name = .error e) :
    writtenFile args defs names = none := by
  obtain ⟨e2, h2⟩ := generateAll_error_of_mem defs names name e hmem herr
  unfold writtenFile run
  rw [h2]

/-- Claim C8, witness: requesting a type absent from the package yields an
unresolved-type-name error and no output file. -/
theorem claim_C8_witness :
    ("Missing" ∈ ["Missing"])
    ∧ generate [] "Missing" = .error (.unresolvedTypeName "Missing")
    ∧ writtenFile "-type Missing ." [] ["Missing"] = none :=
  ⟨by simp, rfl,
    claim_C8 "-type Missing ." [] ["Missing"] "Missing" (.unresolvedTypeName "Missing")
      (by simp) rfl⟩

/-- Claim C9: for every struct field whose type is an inline anonymous
struct, the field translator fails with an UnsupportedTypeKind error — the
field-level type dispatch has no struct case, so struct bodies are only
translated as the underlying type of a requested top-level type. -/
theorem claim_C9 (fields : List (String × GoType)) :
    kaiType (GoType.struct fields) = .error (.unsupportedTypeKind "*types.Struct") := rfl

/-- Every type descriptor has positive array/slice nesting depth. -/
theorem tySize_pos (t : GoType) : 1 ≤ tySize t := by
  cases t <;> simp [tySize]

/-- Claim C10: the field-level translation terminates on every finite type
descriptor — the fuel-indexed translator, which charges one unit of fuel
exactly at the two recursive calls (the element type of a fixed array and
of a slice) and recurses nowhere else, never runs out of fuel once the
fuel reaches the array/slice nesting depth, and then computes exactly the
translation. -/
theorem claim_C10 (t : GoType) (fuel : Nat) (h : tySize t ≤ fuel) :
    kaiTypeF fuel t = some (kaiType t) := by
  induction fuel generalizing t with
  | zero => exact absurd h (by have := tySize_pos t; omega)
  | succ f ih =>
    cases t with
    | basic k => cases hb : basicKindToKai k <;> simp [kaiTypeF, kaiType, hb]
    | named n u =>
      cases u with
      | basic bk => cases hb : basicKindToKai bk <;> simp [kaiTypeF, kaiType, hb]
      | _ => simp [kaiTypeF, kaiType]
    | array len elem =>
      have ht : tySize elem ≤ f := by
        unfold tySize at h
        omega
      cases hk : kaiType elem with
      | error e => simp [kaiTypeF, kaiType, ih elem ht, hk]
      | ok v => obtain ⟨s, d⟩ := v; simp [kaiTypeF, kaiType, ih elem ht, hk]
    | slice elem =>
      have ht : tySize elem ≤ f := by
        unfold tySize at h
        omega
      cases hk : kaiType elem with
      | error e => simp [kaiTypeF, kaiType, ih elem ht, hk]
      | ok v => obtain ⟨s, d⟩ := v; simp [kaiTypeF, kaiType, ih elem ht, hk]
    | pointer elem => simp [kaiTypeF, kaiType]
    | signature d => simp [kaiTypeF, kaiType]
    | struct fs => simp [kaiTypeF, kaiType]
    | other d => simp [kaiTypeF, kaiType]

/-- Claim C10, witness: a length-2 array of uint8 at fuel 2. -/
theorem claim_C10_witness :
    tySize (GoType.array 2 (GoType.basic BasicKind.uint8)) ≤ 2
    ∧ kaiTypeF 2 (GoType.array 2 (GoType.basic BasicKind.uint8))
      = some (kaiType (GoType.array 2 (GoType.basic BasicKind.uint8))) :=
  ⟨by decide, claim_C10 (GoType.array 2 (GoType.basic BasicKind.uint8)) 2 (by decide)⟩

end Type2Kaitai
